import Mathlib

/-
  Verification of the Sesame voice-relay web application.

  Shallow embedding of the components the claims refer to:
  - TokenManager.get_valid_token (src/wrapper.py, lines 364-474), with the
    Auth Service modelled as an oracle giving the outcome of each API call.
  - SesameWebSocket handshake / close handlers and is_connected
    (src/wrapper.py, lines 597-707 and 900-907).
  - The drop-oldest bounded inbound queue used by _handle_audio
    (src/wrapper.py, lines 676-686; capacity set at line 517).
  - The adaptive jitter-buffer retuning of VoiceChatProxy.process_ai_audio
    (src/app.py, lines 180-208).
  - VoiceChatProxy.enhance_audio_quality (src/app.py, lines 234-268),
    with numpy float arithmetic modelled exactly over the rationals.
  - The browser-message dispatch loop of ws_chat (src/app.py, lines 477-500)
    and the locking structure of create_session / end_session
    (src/app.py, lines 386-412).
-/

/-! ## Token lifecycle (src/wrapper.py, TokenManager) -/

/-- Errors raised by the Auth Service wrapper: InvalidTokenError,
NetworkError, APIError (src/wrapper.py, lines 34-57). -/
inductive AuthErr where
  | invalidToken
  | network
  | api
deriving DecidableEq, Repr

/-- Fields of a successful signUp response used by the token manager
(src/wrapper.py, SignupResponse, lines 117-125). -/
structure SignupResp where
  id_token : String
  refresh_token : String
  local_id : String
  expires_in : String
deriving DecidableEq, Repr

/-- Fields of a successful token-refresh response used by the token manager
(src/wrapper.py, RefreshTokenResponse, lines 127-137). -/
structure RefreshResp where
  id_token : String
  refresh_token : String
  user_id : String
  expires_in : String
deriving DecidableEq, Repr

/-- The token cache dict self.tokens of TokenManager: the keys read or
written by get_valid_token, each possibly absent. -/
structure Tokens where
  id_token : Option String := none
  refresh_token : Option String := none
  user_id : Option String := none
  expires_in : Option String := none
  timestamp : Option Nat := none
deriving DecidableEq, Repr

/-- Outcome of each Auth Service endpoint for the present call, seen from
the token manager: account lookup (get_account_info), token refresh
(refresh_authentication_token) and anonymous signup
(create_anonymous_account). -/
structure AuthOracle where
  lookupResult : Except AuthErr Unit
  refreshResult : Except AuthErr RefreshResp
  signupResult : Except AuthErr SignupResp

/-- The three Auth Service calls the token manager can make. -/
inductive ApiCall where
  | lookupAcct
  | refreshTok
  | signupAnon
deriving DecidableEq, Repr

/-- Result of one get_valid_token call: the returned token or the raised
error, the token cache afterwards, and the Auth Service calls made. -/
structure TokenCallResult where
  result : Except AuthErr String
  tokens : Tokens
  calls : List ApiCall
deriving Repr

/-- TokenManager._create_new_account (src/wrapper.py, lines 449-474):
signs up anonymously; on success replaces the cache with the new record
and returns the new id token; on failure the exception propagates and the
cache is untouched. -/
def create_new_account (tm : Tokens) (o : AuthOracle) (now : Nat) :
    TokenCallResult :=
  match o.signupResult with
  | .ok s =>
      { result := .ok s.id_token
        tokens := { id_token := some s.id_token
                    refresh_token := some s.refresh_token
                    user_id := some s.local_id
                    expires_in := some s.expires_in
                    timestamp := some now }
        calls := [.signupAnon] }
  | .error e => { result := .error e, tokens := tm, calls := [.signupAnon] }

/-- TokenManager.get_valid_token (src/wrapper.py, lines 384-447).
_is_token_expired (lines 364-382) performs the lookup: InvalidTokenError
means expired, NetworkError and APIError are re-raised and caught by the
caller, which then returns the cached token unchecked. An expired token
with a refresh token present goes through refresh_authentication_token;
any failure there is converted to InvalidTokenError with the cache left
unchanged. -/
def get_valid_token (tm : Tokens) (o : AuthOracle) (now : Nat)
    (force_new : Bool) : TokenCallResult :=
  if force_new then create_new_account tm o now
  else
    match tm.id_token with
    | none => create_new_account tm o now
    | some idt =>
      match o.lookupResult with
      | .ok _ => { result := .ok idt, tokens := tm, calls := [.lookupAcct] }
      | .error .network =>
          { result := .ok idt, tokens := tm, calls := [.lookupAcct] }
      | .error .api =>
          { result := .ok idt, tokens := tm, calls := [.lookupAcct] }
      | .error .invalidToken =>
          match tm.refresh_token with
          | none =>
              { result := .error .invalidToken, tokens := tm
                calls := [.lookupAcct] }
          | some _ =>
              match o.refreshResult with
              | .ok r =>
                  { result := .ok r.id_token
                    tokens := { id_token := some r.id_token
                                refresh_token := some r.refresh_token
                                user_id := some r.user_id
                                expires_in := some r.expires_in
                                timestamp := some now }
                    calls := [.lookupAcct, .refreshTok] }
              | .error _ =>
                  { result := .error .invalidToken, tokens := tm
                    calls := [.lookupAcct, .refreshTok] }

/-- VoiceChatProxy.authenticate computes force_new as
"self.token_file is None" (src/app.py, line 82). -/
def authenticate_force_new (token_file : Option String) : Bool :=
  token_file.isNone

/-- create_session builds VoiceChatProxy(session_id, character) with the
token_file argument left at its default None (src/app.py, line 390 and
line 38). -/
def create_session_token_file : Option String := none

/-! ## Claims C7, C8, C10 -/

/-- C7: with a cached id token present and forceNew false, a network or
API error during the validity check itself makes get_valid_token return
the cached token unchecked, with the cache unchanged and no error
raised. -/
theorem c7_check_failure_returns_cached
    (tm : Tokens) (o : AuthOracle) (now : Nat) (t : String)
    (hid : tm.id_token = some t)
    (hl : o.lookupResult = .error .network ∨ o.lookupResult = .error .api) :
    (get_valid_token tm o now false).result = .ok t ∧
    (get_valid_token tm o now false).tokens = tm := by
  rcases hl with h | h <;> simp [get_valid_token, hid, h]

/-- C7 witness at a concrete cache and oracle. -/
theorem c7_check_failure_returns_cached_witness :
    ({ id_token := some "tok" : Tokens }).id_token = some "tok" ∧
    (({ lookupResult := .error .network, refreshResult := .error .api
        signupResult := .error .api : AuthOracle }).lookupResult
          = .error .network ∨
     ({ lookupResult := .error .network, refreshResult := .error .api
        signupResult := .error .api : AuthOracle }).lookupResult
          = .error .api) ∧
    ((get_valid_token { id_token := some "tok" }
        { lookupResult := .error .network, refreshResult := .error .api
          signupResult := .error .api } 0 false).result = .ok "tok" ∧
     (get_valid_token { id_token := some "tok" }
        { lookupResult := .error .network, refreshResult := .error .api
          signupResult := .error .api } 0 false).tokens
        = { id_token := some "tok" }) :=
  ⟨rfl, Or.inl rfl,
   c7_check_failure_returns_cached _ _ 0 "tok" rfl (Or.inl rfl)⟩

/-- C8: with a cached token reported expired by lookup and a refresh token
present: on refresh success the cache is replaced and the new id token is
returned after exactly one refresh call; on refresh failure of any kind
the call fails with InvalidToken and the cache is unchanged. -/
theorem c8_refresh_path
    (tm : Tokens) (o : AuthOracle) (now : Nat) (t rt : String)
    (hid : tm.id_token = some t)
    (hrt : tm.refresh_token = some rt)
    (hl : o.lookupResult = .error .invalidToken) :
    (∀ r : RefreshResp, o.refreshResult = .ok r →
      (get_valid_token tm o now false).result = .ok r.id_token ∧
      (get_valid_token tm o now false).tokens =
        { id_token := some r.id_token
          refresh_token := some r.refresh_token
          user_id := some r.user_id
          expires_in := some r.expires_in
          timestamp := some now } ∧
      (get_valid_token tm o now false).calls = [.lookupAcct, .refreshTok]) ∧
    (∀ e : AuthErr, o.refreshResult = .error e →
      (get_valid_token tm o now false).result = .error .invalidToken ∧
      (get_valid_token tm o now false).tokens = tm) := by
  constructor
  · intro r hr
    simp [get_valid_token, hid, hrt, hl, hr]
  · intro e he
    simp [get_valid_token, hid, hrt, hl, he]

/-- C8 witness at a concrete cache and oracle with a successful refresh. -/
theorem c8_refresh_path_witness :
    ({ id_token := some "tok", refresh_token := some "ref" : Tokens }).id_token
      = some "tok" ∧
    ({ id_token := some "tok", refresh_token := some "ref" : Tokens
        }).refresh_token = some "ref" ∧
    ((∀ r : RefreshResp,
      ({ lookupResult := .error .invalidToken
         refreshResult := .ok ⟨"new", "newref", "u", "3600"⟩
         signupResult := .error .api : AuthOracle }).refreshResult = .ok r →
      (get_valid_token { id_token := some "tok", refresh_token := some "ref" }
        { lookupResult := .error .invalidToken
          refreshResult := .ok ⟨"new", "newref", "u", "3600"⟩
          signupResult := .error .api } 7 false).result = .ok r.id_token ∧
      (get_valid_token { id_token := some "tok", refresh_token := some "ref" }
        { lookupResult := .error .invalidToken
          refreshResult := .ok ⟨"new", "newref", "u", "3600"⟩
          signupResult := .error .api } 7 false).tokens =
        { id_token := some r.id_token
          refresh_token := some r.refresh_token
          user_id := some r.user_id
          expires_in := some r.expires_in
          timestamp := some 7 } ∧
      (get_valid_token { id_token := some "tok", refresh_token := some "ref" }
        { lookupResult := .error .invalidToken
          refreshResult := .ok ⟨"new", "newref", "u", "3600"⟩
          signupResult := .error .api } 7 false).calls
        = [.lookupAcct, .refreshTok]) ∧
    (∀ e : AuthErr,
      ({ lookupResult := .error .invalidToken
         refreshResult := .ok ⟨"new", "newref", "u", "3600"⟩
         signupResult := .error .api : AuthOracle }).refreshResult
           = .error e →
      (get_valid_token { id_token := some "tok", refresh_token := some "ref" }
        { lookupResult := .error .invalidToken
          refreshResult := .ok ⟨"new", "newref", "u", "3600"⟩
          signupResult := .error .api } 7 false).result
        = .error .invalidToken ∧
      (get_valid_token { id_token := some "tok", refresh_token := some "ref" }
        { lookupResult := .error .invalidToken
          refreshResult := .ok ⟨"new", "newref", "u", "3600"⟩
          signupResult := .error .api } 7 false).tokens
        = { id_token := some "tok", refresh_token := some "ref" })) :=
  ⟨rfl, rfl,
   c8_refresh_path { id_token := some "tok", refresh_token := some "ref" }
     { lookupResult := .error .invalidToken
       refreshResult := .ok ⟨"new", "newref", "u", "3600"⟩
       signupResult := .error .api } 7 "tok" "ref" rfl rfl rfl⟩

/-- C10: create_session leaves token_file at None, so authenticate computes
force_new = true, and get_valid_token with force_new = true always goes
through the anonymous-signup path alone: it makes exactly the signup call
and never the lookup or refresh call, regardless of the cache contents and
the oracle. -/
theorem c10_web_sessions_force_new :
    authenticate_force_new create_session_token_file = true ∧
    ∀ (tm : Tokens) (o : AuthOracle) (now : Nat),
      (get_valid_token tm o now
          (authenticate_force_new create_session_token_file)).calls
        = [.signupAnon] ∧
      ApiCall.lookupAcct ∉
        (get_valid_token tm o now
          (authenticate_force_new create_session_token_file)).calls ∧
      ApiCall.refreshTok ∉
        (get_valid_token tm o now
          (authenticate_force_new create_session_token_file)).calls := by
  refine ⟨rfl, fun tm o now => ?_⟩
  have h : (get_valid_token tm o now
      (authenticate_force_new create_session_token_file)).calls
      = [.signupAnon] := by
    simp only [authenticate_force_new, create_session_token_file,
      Option.isNone_none, get_valid_token, if_true, create_new_account]
    cases o.signupResult <;> rfl
  refine ⟨h, ?_, ?_⟩ <;> simp [h]

/-! ## SesameWebSocket handshake state (src/wrapper.py) -/

/-- The connection-state fields of SesameWebSocket touched by the
handshake and close handlers (src/wrapper.py, lines 497-525). -/
structure WSState where
  session_id : Option String := none
  call_id : Option String := none
  client_sample_rate : Nat := 16000
  server_sample_rate : Nat := 24000
  audio_codec : String := "none"
  connected_event : Bool := false
deriving DecidableEq, Repr

/-- Callback events SesameWebSocket can fire towards the proxy. -/
inductive WSEvent where
  | connectCb
  | disconnectCb
deriving DecidableEq, Repr

/-- SesameWebSocket.is_connected (src/wrapper.py, lines 900-907):
session_id is not None and call_id is not None. -/
def is_connected (s : WSState) : Bool :=
  s.session_id.isSome && s.call_id.isSome

/-- SesameWebSocket._handle_initialize (src/wrapper.py, lines 639-646):
stores the session id from the message. The subsequent
client_location_state and call_connect sends do not change this state. -/
def handle_init_message (s : WSState) (sid : Option String) : WSState :=
  { s with session_id := sid }

/-- SesameWebSocket._handle_call_connect_response (src/wrapper.py,
lines 648-663): stores session_id and call_id, takes sample_rate from the
content with the current value as default and audio_codec with default
"none", sets the connected event and fires the connect callback. -/
def handle_call_connect_resp (s : WSState) (sid cid : Option String)
    (rate : Option Nat) (codec : Option String) : WSState × List WSEvent :=
  ({ s with session_id := sid
            call_id := cid
            server_sample_rate := rate.getD s.server_sample_rate
            audio_codec := codec.getD "none"
            connected_event := true }, [.connectCb])

/-- SesameWebSocket._on_close (src/wrapper.py, lines 629-636): clears the
connected event and fires the disconnect callback; no other field is
touched. -/
def on_close (s : WSState) : WSState × List WSEvent :=
  ({ s with connected_event := false }, [.disconnectCb])

/-- SesameWebSocket._handle_call_disconnect_response (src/wrapper.py,
lines 698-705): clears call_id and fires the disconnect callback. -/
def handle_call_disconnect_resp (s : WSState) : WSState × List WSEvent :=
  ({ s with call_id := none }, [.disconnectCb])

/-- The state reached by a fresh SesameWebSocket after the normal
handshake: initialize with session id s1, then call_connect_response with
session id s1, call id c1, sample rate 24000. -/
def handshaked_state : WSState :=
  (handle_call_connect_resp (handle_init_message {} (some "s1"))
    (some "s1") (some "c1") (some 24000) (some "none")).1

/-! ## Claim C1 -/

/-- C1 counterexample: after a normal handshake, a transport close fires
the disconnect event, yet is_connected is still true and the handshake
context (session id, call id, server sample rate, codec) is not cleared,
contradicting the claim that is_connected is immediately false after any
disconnect event and that the close clears the context. -/
theorem c1_close_counterexample :
    (on_close handshaked_state).2 = [.disconnectCb] ∧
    is_connected (on_close handshaked_state).1 = true ∧
    (on_close handshaked_state).1.session_id = some "s1" ∧
    (on_close handshaked_state).1.call_id = some "c1" ∧
    (on_close handshaked_state).1.server_sample_rate = 24000 := by
  refine ⟨rfl, rfl, rfl, rfl, rfl⟩

/-- C1 amended: is_connected is exactly (session_id set and call_id set);
it is false immediately after the call_disconnect_response disconnect
event, which clears call_id; on transport close the disconnect event does
fire and the connected event flag clears, but session id, call id, server
sample rate and codec are all left as they were, so is_connected is
unchanged rather than false. -/
theorem c1_amended_connection_state :
    (∀ s : WSState,
      is_connected s = (s.session_id.isSome && s.call_id.isSome)) ∧
    (∀ s : WSState,
      is_connected (handle_call_disconnect_resp s).1 = false ∧
      (handle_call_disconnect_resp s).2 = [.disconnectCb]) ∧
    (∀ s : WSState,
      (on_close s).2 = [.disconnectCb] ∧
      (on_close s).1.session_id = s.session_id ∧
      (on_close s).1.call_id = s.call_id ∧
      (on_close s).1.server_sample_rate = s.server_sample_rate ∧
      (on_close s).1.audio_codec = s.audio_codec ∧
      (on_close s).1.connected_event = false ∧
      is_connected (on_close s).1 = is_connected s) := by
  refine ⟨fun s => rfl, fun s => ⟨?_, rfl⟩,
    fun s => ⟨rfl, rfl, rfl, rfl, rfl, rfl, rfl⟩⟩
  simp [is_connected, handle_call_disconnect_resp]

/-! ## Browser-message dispatch (src/app.py, ws_chat) -/

/-- A parsed JSON message from the browser, by its type field and the
payload fields the handler reads (src/app.py, lines 482-496). -/
inductive ClientMsg where
  | audioMsg (data : String)
  | ping
  | command (cmd : Option String)
  | otherType
deriving DecidableEq, Repr

/-- The observable actions the ws_chat loop body can take in response to
one message. The vocabulary includes the reconnect actions the spec
describes so their absence is expressible. -/
inductive ProxyAction where
  | sendAudioToAI (data : String)
  | sendPong
  | sendStatus
  | invokeReconnect
  | sendReconnectResult (success : Bool)
deriving DecidableEq, Repr

/-- The ws_chat message dispatch (src/app.py, lines 482-496): an audio
message is forwarded to the AI, a ping is answered with a pong, and a
command message triggers a status resend when the command is "status";
every other message, including any other command, does nothing. -/
def ws_chat_dispatch (m : ClientMsg) : List ProxyAction :=
  match m with
  | .audioMsg d => [.sendAudioToAI d]
  | .ping => [.sendPong]
  | .command c => if c = some "status" then [.sendStatus] else []
  | .otherType => []

/-! ## Claim C3 -/

/-- C3 counterexample: the concrete client message with type "command" and
command "reconnect" produces no action at all - in particular it neither
invokes reconnect nor answers with a reconnect_result message,
contradicting the claim. -/
theorem c3_reconnect_counterexample :
    ws_chat_dispatch (.command (some "reconnect")) = [] ∧
    ProxyAction.invokeReconnect ∉
      ws_chat_dispatch (.command (some "reconnect")) ∧
    (∀ b : Bool, ProxyAction.sendReconnectResult b ∉
      ws_chat_dispatch (.command (some "reconnect"))) := by
  refine ⟨rfl, by simp [ws_chat_dispatch], ?_⟩
  intro b
  simp [ws_chat_dispatch]

/-- C3 amended: a command message "status" triggers exactly a status
resend; a command message "reconnect" is ignored: no reconnect operation
is invoked and no reply of any kind is sent. -/
theorem c3_amended_command_dispatch :
    ws_chat_dispatch (.command (some "status")) = [.sendStatus] ∧
    ws_chat_dispatch (.command (some "reconnect")) = [] := by
  exact ⟨rfl, rfl⟩

/-! ## Session registry locking (src/app.py, lines 386-412) -/

/-- The observable steps of create_session and end_session: lock
acquisition and release, registry map mutation, and the SessionProxy
start and stop calls. -/
inductive RegEvent where
  | lockAcquire
  | lockRelease
  | mapInsert
  | mapDelete
  | proxyStart
  | proxyStop
deriving DecidableEq, Repr

/-- The event trace of create_session (src/app.py, lines 386-398): the
whole body runs inside "with session_lock", inserting the proxy into
active_sessions, then calling proxy.start(), and deleting the entry again
when start fails; the lock is released only when the with-block exits. -/
def create_session_trace (start_ok : Bool) : List RegEvent :=
  [.lockAcquire, .mapInsert, .proxyStart] ++
    (if start_ok then [] else [.mapDelete]) ++ [.lockRelease]

/-- The event trace of end_session (src/app.py, lines 405-412): inside
"with session_lock" the entry is popped and, when present, proxy.stop()
is called before the lock is released. -/
def end_session_trace (found : Bool) : List RegEvent :=
  [.lockAcquire] ++
    (if found then [.mapDelete, .proxyStop] else []) ++ [.lockRelease]

/-- The events of a trace that happen while the registry lock is held:
those strictly between the lock acquisition and the lock release. -/
def events_under_lock (tr : List RegEvent) : List RegEvent :=
  ((tr.dropWhile (fun e => e ≠ .lockAcquire)).drop 1).takeWhile
    (fun e => e ≠ .lockRelease)

/-! ## Claim C6 -/

/-- C6 counterexample: in the concrete successful session create, the
proxy start call happens while the registry lock is held, and in the
concrete session destroy of a present session, the proxy stop call
happens while the lock is held - contradicting the claim that start and
stop execute outside the registry lock. -/
theorem c6_lock_counterexample :
    RegEvent.proxyStart ∈ events_under_lock (create_session_trace true) ∧
    RegEvent.proxyStop ∈ events_under_lock (end_session_trace true) := by
  exact ⟨by decide, by decide⟩

/-- C6 amended: the registry lock guards the map mutations, but it is also
held across the network-bound SessionProxy calls: every create runs
proxy.start() (and the rollback delete on failure) under the lock, and
every destroy of a present session runs proxy.stop() under the lock. -/
theorem c6_amended_lock_scope :
    (RegEvent.mapInsert ∈ events_under_lock (create_session_trace true) ∧
     RegEvent.proxyStart ∈ events_under_lock (create_session_trace true)) ∧
    (RegEvent.mapInsert ∈ events_under_lock (create_session_trace false) ∧
     RegEvent.proxyStart ∈ events_under_lock (create_session_trace false) ∧
     RegEvent.mapDelete ∈ events_under_lock (create_session_trace false)) ∧
    (RegEvent.mapDelete ∈ events_under_lock (end_session_trace true) ∧
     RegEvent.proxyStop ∈ events_under_lock (end_session_trace true)) := by
  decide

/-! ## Adaptive jitter buffering (src/app.py, process_ai_audio) -/

/-- The jitter-window update of process_ai_audio (src/app.py,
lines 182-188): append the newly observed inter-arrival gap, in seconds,
and keep only the last 20 measurements. -/
def record_gap (network_jitter : List ℚ) (gap : ℚ) : List ℚ :=
  let l := network_jitter ++ [gap]
  if 20 < l.length then l.drop 1 else l

/-- The adaptive buffer retargeting of process_ai_audio (src/app.py,
lines 199-208): with at least 5 recorded gaps, compute the average gap;
above 50 ms the target grows by 20 ms capped at 300 ms; below 20 ms with
a target above 100 ms it shrinks by 10 ms floored at 80 ms; otherwise the
target is unchanged. Gaps are in seconds, the target in milliseconds. -/
def retune_buffer_size (network_jitter : List ℚ) (buffer_size_ms : ℚ) :
    ℚ :=
  if 5 ≤ network_jitter.length then
    let avg_jitter := network_jitter.sum / (network_jitter.length : ℚ)
    let jitter_ms := avg_jitter * 1000
    if 50 < jitter_ms then min 300 (buffer_size_ms + 20)
    else if jitter_ms < 20 ∧ 100 < buffer_size_ms then
      max 80 (buffer_size_ms - 10)
    else buffer_size_ms
  else buffer_size_ms

/-- The jitter-relevant loop state of process_ai_audio: the rolling gap
window and the current buffer target in milliseconds. -/
structure JitterState where
  window : List ℚ
  target_ms : ℚ
deriving Repr

/-- One arrival observed by process_ai_audio: record the gap, then run the
retune evaluation on the updated window. -/
def jitter_step (s : JitterState) (gap : ℚ) : JitterState :=
  let w := record_gap s.window gap
  { window := w, target_ms := retune_buffer_size w s.target_ms }

/-- The jitter state after an arbitrary sequence of observed gaps,
starting from the initial empty window and the initial 120 ms target set
at src/app.py line 166. -/
def jitter_run (gaps : List ℚ) : JitterState :=
  gaps.foldl jitter_step { window := [], target_ms := 120 }

/-- One retune evaluation keeps the target inside the 80 to 300 ms
range. -/
theorem retune_buffer_size_mem_range (w : List ℚ) (t : ℚ)
    (hlo : 80 ≤ t) (hhi : t ≤ 300) :
    80 ≤ retune_buffer_size w t ∧ retune_buffer_size w t ≤ 300 := by
  simp only [retune_buffer_size]
  split_ifs
  · exact ⟨le_min (by norm_num) (by linarith), min_le_left _ _⟩
  · exact ⟨le_max_left _ _, max_le (by norm_num) (by linarith)⟩
  · exact ⟨hlo, hhi⟩
  · exact ⟨hlo, hhi⟩

/-! ## Claim C4 -/

/-- C4: on a retune evaluation with at least 5 recorded gaps, an average
gap above 50 ms moves the target to min 300 (target + 20): a strict
increase whenever the target is below the 300 ms cap, by exactly 20 ms
whenever that stays within the cap, and never beyond 300 ms; an average
gap below 20 ms with a target above 100 ms moves the target to exactly
target - 10: a strict decrease that never goes below the 80 ms floor. -/
theorem c4_retune_direction (w : List ℚ) (t : ℚ)
    (h5 : 5 ≤ w.length) :
    (50 < w.sum / (w.length : ℚ) * 1000 →
      retune_buffer_size w t = min 300 (t + 20) ∧
      (t < 300 → t < retune_buffer_size w t) ∧
      (t + 20 ≤ 300 → retune_buffer_size w t = t + 20) ∧
      retune_buffer_size w t ≤ 300) ∧
    (w.sum / (w.length : ℚ) * 1000 < 20 → 100 < t →
      retune_buffer_size w t = t - 10 ∧
      retune_buffer_size w t < t ∧
      80 ≤ retune_buffer_size w t) := by
  constructor
  · intro hgap
    have he : retune_buffer_size w t = min 300 (t + 20) := by
      unfold retune_buffer_size
      rw [if_pos h5, if_pos hgap]
    refine ⟨he, ?_, ?_, ?_⟩
    · intro hlt
      rw [he]
      rcases le_total 300 (t + 20) with h | h
      · rw [min_eq_left h] ; exact hlt
      · rw [min_eq_right h] ; linarith
    · intro hle
      rw [he, min_eq_right hle]
    · rw [he] ; exact min_le_left _ _
  · intro hgap ht
    have hno : ¬ 50 < w.sum / (w.length : ℚ) * 1000 := by linarith
    have he : retune_buffer_size w t = max 80 (t - 10) := by
      unfold retune_buffer_size
      rw [if_pos h5, if_neg hno, if_pos ⟨hgap, ht⟩]
    have hm : max 80 (t - 10) = t - 10 := max_eq_right (by linarith)
    rw [he, hm]
    refine ⟨rfl, by linarith, by linarith⟩

/-- C4 witness: five 60 ms gaps on a 120 ms target give an average of
60 ms, above the 50 ms threshold, and the target grows to 140 ms. -/
theorem c4_retune_direction_witness :
    5 ≤ ([6/100, 6/100, 6/100, 6/100, 6/100] : List ℚ).length ∧
    ((50 < ([6/100, 6/100, 6/100, 6/100, 6/100] : List ℚ).sum /
        ((([6/100, 6/100, 6/100, 6/100, 6/100] : List ℚ).length : ℚ)) *
        1000 →
      retune_buffer_size [6/100, 6/100, 6/100, 6/100, 6/100] 120
        = min 300 (120 + 20) ∧
      ((120 : ℚ) < 300 →
        (120 : ℚ) <
          retune_buffer_size [6/100, 6/100, 6/100, 6/100, 6/100] 120) ∧
      ((120 : ℚ) + 20 ≤ 300 →
        retune_buffer_size [6/100, 6/100, 6/100, 6/100, 6/100] 120
          = 120 + 20) ∧
      retune_buffer_size [6/100, 6/100, 6/100, 6/100, 6/100] 120 ≤ 300) ∧
    (([6/100, 6/100, 6/100, 6/100, 6/100] : List ℚ).sum /
        ((([6/100, 6/100, 6/100, 6/100, 6/100] : List ℚ).length : ℚ)) *
        1000 < 20 → (100 : ℚ) < 120 →
      retune_buffer_size [6/100, 6/100, 6/100, 6/100, 6/100] 120
        = 120 - 10 ∧
      retune_buffer_size [6/100, 6/100, 6/100, 6/100, 6/100] 120 < 120 ∧
      (80 : ℚ) ≤
        retune_buffer_size [6/100, 6/100, 6/100, 6/100, 6/100] 120)) ∧
    50 < ([6/100, 6/100, 6/100, 6/100, 6/100] : List ℚ).sum /
      ((([6/100, 6/100, 6/100, 6/100, 6/100] : List ℚ).length : ℚ)) *
      1000 :=
  ⟨by decide, c4_retune_direction [6/100, 6/100, 6/100, 6/100, 6/100] 120
    (by decide), by norm_num⟩

/-! ## Claim C9 -/

/-- C9: for every sequence of observed inter-arrival gaps, the buffer
target reached by the adaptive retuning stays within 80 to 300 ms
inclusive; moreover a single retune evaluation never moves a target that
is inside the range out of it. -/
theorem c9_target_bounded (gaps : List ℚ) :
    (80 ≤ (jitter_run gaps).target_ms ∧
      (jitter_run gaps).target_ms ≤ 300) ∧
    ∀ (w : List ℚ) (t : ℚ), 80 ≤ t → t ≤ 300 →
      80 ≤ retune_buffer_size w t ∧ retune_buffer_size w t ≤ 300 := by
  refine ⟨?_, fun w t hlo hhi => retune_buffer_size_mem_range w t hlo hhi⟩
  have key : ∀ (l : List ℚ) (s : JitterState),
      80 ≤ s.target_ms → s.target_ms ≤ 300 →
      80 ≤ (l.foldl jitter_step s).target_ms ∧
        (l.foldl jitter_step s).target_ms ≤ 300 := by
    intro l
    induction l with
    | nil => intro s hlo hhi ; exact ⟨hlo, hhi⟩
    | cons g l ih =>
        intro s hlo hhi
        have hstep := retune_buffer_size_mem_range
          (record_gap s.window g) s.target_ms hlo hhi
        exact ih (jitter_step s g) hstep.1 hstep.2
  exact key gaps { window := [], target_ms := 120 } (by norm_num)
    (by norm_num)

/-! ## Inbound audio queue (src/wrapper.py, _handle_audio) -/

/-- The queue interaction of SesameWebSocket._handle_audio
(src/wrapper.py, lines 676-686) on the bounded FIFO
self.audio_buffer = queue.Queue(maxsize=1000) (line 517): put_nowait the
new frame; if the queue is full, get_nowait one frame (the oldest) and
put_nowait the new frame; a python Queue is full when maxsize is positive
and reached, and if the full queue turns out empty on get (impossible
sequentially) the new frame is silently dropped. Nothing ever blocks. -/
def put_drop_oldest {α : Type} (maxsize : ℕ) (q : List α) (x : α) :
    List α :=
  if 0 < maxsize ∧ maxsize ≤ q.length then
    if q.isEmpty then q else q.tail ++ [x]
  else q ++ [x]

/-- Feeding any sequence of frames through the drop-oldest queue keeps
exactly the last maxsize frames, in arrival order. -/
theorem foldl_put_drop_oldest {α : Type} (N : ℕ) (hN : 0 < N)
    (l : List α) :
    l.foldl (put_drop_oldest N) [] = l.drop (l.length - N) := by
  induction l using List.reverseRecOn with
  | nil => simp
  | append_singleton l x ih =>
      rw [List.foldl_append, List.foldl_cons, List.foldl_nil, ih]
      by_cases h : l.length < N
      · have h0 : l.length - N = 0 := by omega
        have h1 : (l ++ [x]).length - N = 0 := by
          simp only [List.length_append, List.length_cons,
            List.length_nil] ; omega
        rw [h0, List.drop_zero, h1, List.drop_zero]
        have hc : ¬ (0 < N ∧ N ≤ l.length) := by omega
        rw [put_drop_oldest, if_neg hc]
      · have hNle : N ≤ l.length := by omega
        have hlen : (l.drop (l.length - N)).length = N := by
          rw [List.length_drop] ; omega
        have hfull : 0 < N ∧ N ≤ (l.drop (l.length - N)).length := by
          rw [hlen] ; exact ⟨hN, le_refl N⟩
        have hne : (l.drop (l.length - N)).isEmpty = false := by
          cases hq : l.drop (l.length - N) with
          | nil => rw [hq] at hlen ; simp at hlen ; omega
          | cons a t => rfl
        rw [put_drop_oldest, if_pos hfull, hne]
        simp only [Bool.false_eq_true, if_false]
        rw [List.tail_drop]
        have harith : (l ++ [x]).length - N = (l.length - N) + 1 := by
          simp only [List.length_append, List.length_cons,
            List.length_nil] ; omega
        rw [harith,
          List.drop_append_of_le_length (by omega : l.length - N + 1 ≤ l.length)]

/-! ## Claim C5 -/

/-- C5: pushing 1001 frames through the audio handler into the empty
capacity-1000 inbound queue leaves exactly the 1000 most recently pushed
frames, in arrival order, with the oldest frame evicted and the newest
kept; the producer is a total function and is never blocked. -/
theorem c5_inbound_queue_drop_oldest {α : Type} (l : List α)
    (h : l.length = 1001) :
    l.foldl (put_drop_oldest 1000) [] = l.drop 1 ∧
    (l.foldl (put_drop_oldest 1000) []).length = 1000 := by
  have he := foldl_put_drop_oldest 1000 (by norm_num) l
  constructor
  · rw [he, h]
  · rw [he, List.length_drop, h]

/-- C5 witness: the 1001 frames 0, 1, ..., 1000 leave frames 1, ..., 1000
in the queue. -/
theorem c5_inbound_queue_drop_oldest_witness :
    (List.range 1001).length = 1001 ∧
    ((List.range 1001).foldl (put_drop_oldest 1000) []
        = (List.range 1001).drop 1 ∧
     ((List.range 1001).foldl (put_drop_oldest 1000) []).length = 1000) :=
  ⟨by simp, c5_inbound_queue_drop_oldest (List.range 1001) (by simp)⟩

/-! ## Flush-time normalization (src/app.py, enhance_audio_quality)

The numpy arithmetic is modelled exactly over the rationals: the input is
the int16 sample list obtained by np.frombuffer, and the value returned
is the sample list of the array handed to tobytes at the end. Because
subtracting the float mean promotes the array to float64, the returned
samples are rationals, not 16-bit integers. -/

/-- Truncation toward zero: the conversion astype(np.int16) applies to a
float value that is inside the int16 range. -/
def trunc_to_int (x : ℚ) : ℤ :=
  if 0 ≤ x then ⌊x⌋ else ⌈x⌉

/-- np.clip of a value to the interval from lo to hi. -/
def np_clip (x lo hi : ℚ) : ℚ :=
  min (max x lo) hi

/-- np.abs on an int16 element: twos-complement wrap-around, so the
absolute value of -32768 is -32768 again. -/
def np_abs_int16 (i : ℤ) : ℤ :=
  ((|i| + 32768) % 65536) - 32768

/-- astype(np.int16) on a float64 value that may be outside the int16
range: truncation toward zero followed by the twos-complement wrap the
usual platforms produce (numpy leaves the out-of-range case
unspecified). -/
def to_int16_wrap (x : ℚ) : ℤ :=
  ((trunc_to_int x + 32768) % 65536) - 32768

/-- np.convolve(arr, np.ones(16)/16, mode same): entry i is the average
of the window from i-8 to i+7, clipped to the array bounds, each present
term weighted 1/16. -/
def moving_avg_16 (a : List ℚ) : List ℚ :=
  (List.range a.length).map (fun i =>
    ((a.drop (i - 8)).take (min (a.length - 1) (i + 7) + 1 - (i - 8))).sum
      / 16)

/-- VoiceChatProxy.enhance_audio_quality (src/app.py, lines 234-268) on
the int16 samples of the input buffer. For a non-empty input: compute the
peak magnitude; if positive, scale every sample by
min (32767 / peak * 0.9) 2, clip to the int16 range and truncate back to
int16; then subtract the mean sample value, which in numpy promotes the
array to float64; finally, for more than 64 samples, subtract the
16-sample moving average cast back to int16. The returned value is the
sample list the function serializes with tobytes. -/
def enhance_audio_quality (input : List ℤ) : List ℚ :=
  if input.length = 0 then input.map (fun i : ℤ => (i : ℚ))
  else
    let max_val : ℤ := (input.map np_abs_int16).foldr max 0
    let arr1 : List ℤ :=
      if 0 < max_val then
        let scale : ℚ := min (32767 / (max_val : ℚ) * (9 / 10)) 2
        input.map (fun i : ℤ =>
          trunc_to_int (np_clip ((i : ℚ) * scale) (-32768) 32767))
      else input
    let mean : ℚ :=
      (arr1.map (fun i : ℤ => (i : ℚ))).sum / (arr1.length : ℚ)
    let arr2 : List ℚ := arr1.map (fun i : ℤ => (i : ℚ) - mean)
    if 64 < input.length then
      (arr2.zip (moving_avg_16 arr2)).map
        (fun p => p.1 - (to_int16_wrap p.2 : ℚ))
    else arr2

/-! ## Claim C2 -/

/-- C2: the concrete 3-sample input buffer 29000, 29000, -29000 is scaled
by min (32767 / 29000 * 0.9) 2 to 29490, 29490, -29490, and the
subsequent mean subtraction (mean 9830) yields the float sample -39320,
which lies outside the 16-bit signed range [-32768, 32767]: the returned
buffer is not in-range 16-bit PCM, contradicting the claimed output
invariant even though the applied gain itself never exceeds 2.0. -/
theorem c2_enhance_escapes_int16_range :
    enhance_audio_quality [29000, 29000, -29000]
      = [19660, 19660, -39320] ∧
    (-39320 : ℚ) ∈ enhance_audio_quality [29000, 29000, -29000] ∧
    ((-39320 : ℚ) < -32768) := by
  have hmax : (([29000, 29000, -29000] : List ℤ).map np_abs_int16).foldr
      max 0 = 29000 := by decide
  have hscale : min (32767 / ((29000 : ℤ) : ℚ) * (9 / 10)) 2
      = 294903 / 290000 := by
    rw [min_eq_left (by push_cast ; norm_num)]
    push_cast
    norm_num
  have hpos : trunc_to_int (np_clip (((29000 : ℤ) : ℚ) * (294903 / 290000))
      (-32768) 32767) = 29490 := by
    have hx : ((29000 : ℤ) : ℚ) * (294903 / 290000) = 294903 / 10 := by
      push_cast ; norm_num
    simp only [np_clip, trunc_to_int, hx]
    rw [max_eq_left (by norm_num), min_eq_left (by norm_num),
      if_pos (by norm_num : (0 : ℚ) ≤ 294903 / 10), Int.floor_eq_iff]
    constructor <;> norm_num
  have hneg : trunc_to_int (np_clip (((-29000 : ℤ) : ℚ) * (294903 / 290000))
      (-32768) 32767) = -29490 := by
    have hx : ((-29000 : ℤ) : ℚ) * (294903 / 290000) = -(294903 / 10) := by
      push_cast ; norm_num
    simp only [np_clip, trunc_to_int, hx]
    rw [max_eq_left (by norm_num), min_eq_left (by norm_num),
      if_neg (by norm_num : ¬ (0 : ℚ) ≤ -(294903 / 10)), Int.ceil_eq_iff]
    constructor <;> norm_num
  have heval : enhance_audio_quality [29000, 29000, -29000]
      = [19660, 19660, -39320] := by
    simp only [enhance_audio_quality]
    rw [if_neg (by decide : ¬ ([29000, 29000, -29000] : List ℤ).length = 0),
      hmax, if_pos (by decide : (0 : ℤ) < 29000), hscale]
    simp only [List.map_cons, List.map_nil]
    rw [hpos, hneg,
      if_neg (by decide : ¬ 64 < ([29000, 29000, -29000] : List ℤ).length)]
    simp only [List.map_cons, List.map_nil, List.sum_cons, List.sum_nil,
      List.length_cons, List.length_nil, List.cons.injEq, and_true]
    push_cast
    norm_num
  refine ⟨heval, ?_, by norm_num⟩
  rw [heval]
  simp
